import Mathlib

/-
Verification development for the ViveCore repository
(src/supervive_service.py).

The Python source is shallowly embedded: JSON values become an inductive
type, Python dicts become association lists, time.time() timestamps
become integers (only their ordering and addition matter to the code),
raised exceptions become Except errors, and HTTP traffic is abstracted
as the JSON body / headers the code inspects. Each definition mirrors
one Python function or expression, named after it.
-/

set_option autoImplicit false

/-- JSON values as parsed by res.json(). Json.null doubles as the Python
None value, exactly as json.loads maps JSON null to None. Numbers are
modelled as integers: every number the embedded code paths inspect
(last_page, page numbers, expiry fields) is integral. -/
inductive Json where
  | null : Json
  | bool : Bool → Json
  | num : Int → Json
  | str : String → Json
  | arr : List Json → Json
  | obj : List (String × Json) → Json

/-- Python truthiness of a JSON value (bool(x) for the shapes that occur). -/
def Json.truthy : Json → Bool
  | .null => false
  | .bool b => b
  | .num n => n != 0
  | .str s => s != ""
  | .arr xs => !xs.isEmpty
  | .obj kvs => !kvs.isEmpty

/-- Test for the Python None value (x is None). -/
def Json.isNull : Json → Bool
  | .null => true
  | _ => false

/-- Python short-circuit a or b: returns a when a is truthy, else b. -/
def pyOr (a b : Json) : Json :=
  if a.truthy then a else b

/-- Python dict.get(key) on a parsed JSON object: the first binding of the
key, or None when absent (dict keys are unique, so first binding is the
binding). -/
def dget : List (String × Json) → String → Json
  | [], _ => Json.null
  | (k, v) :: rest, key => if k = key then v else dget rest key

/-- Python dict.get(key, default) on a parsed JSON object. -/
def dgetD : List (String × Json) → String → Json → Json
  | [], _, d => d
  | (k, v) :: rest, key, d => if k = key then v else dgetD rest key d

/-- Python int(x) for the values the embedded code feeds it: a number is
itself, a bool is 0 or 1. Other shapes (on which Python int() would
raise or parse a string) never reach int() under the hypotheses of the
theorems below. -/
def toPyInt : Json → Int
  | .num n => n
  | .bool b => if b then 1 else 0
  | _ => 0

/-- Iterating a JSON value the way list.extend does for the shapes that
occur: an array yields its elements, anything else yields nothing
(non-arrays never reach extend under the theorems' hypotheses). -/
def Json.asList : Json → List Json
  | .arr xs => xs
  | _ => []

/-- dict.get lifted to a JSON value known to be an object (meta.get(k));
the code guards these accesses so non-objects never reach them under
the hypotheses used below. -/
def Json.dgetJ : Json → String → Json
  | .obj kvs, k => dget kvs k
  | _, _ => Json.null

/-- Errors raised by the service, named after the taxonomy in the spec:
missingField is ValueError (data is null or missing) from
check_player_exists, nullPayload is ValueError (data is null),
invalidToken is RuntimeError (invalid player id or XSRF token). -/
inductive SvcError where
  | missingField
  | nullPayload
  | invalidToken
deriving DecidableEq

/-- SuperviveService.check_player_exists, from the response body onward
(the body is a parsed JSON object, as the code assumes):
exists_flag = payload.get(exists) or payload.get(Exists); raise when it
is None; else return bool(exists_flag). -/
def check_player_exists (payload : List (String × Json)) : Except SvcError Bool :=
  let existsFlag := pyOr (dget payload "exists") (dget payload "Exists")
  if existsFlag.isNull then Except.error SvcError.missingField
  else Except.ok existsFlag.truthy

/-- Association-list lookup (Python dict access self._data.get(key)). -/
def alookup {α : Type} : List (String × α) → String → Option α
  | [], _ => none
  | (k, v) :: rest, key => if k = key then some v else alookup rest key

/-- Association-list write (Python dict assignment self._data[key] = v):
replaces the binding when the key is present, appends it otherwise. -/
def aset {α : Type} : List (String × α) → String → α → List (String × α)
  | [], key, v => [(key, v)]
  | (k, w) :: rest, key, v =>
      if k = key then (key, v) :: rest else (k, w) :: aset rest key v

/-- Association-list removal (Python dict self._data.pop(key, None)). -/
def aerase {α : Type} : List (String × α) → String → List (String × α)
  | [], _ => []
  | (k, v) :: rest, key =>
      if k = key then aerase rest key else (k, v) :: aerase rest key

/-- One cache entry, mirroring the JSON structure documented in DiskCache:
value, expires_at, sliding, sliding_ttl. Timestamps and TTLs are
modelled as integers. -/
structure CacheEntry where
  value : Json
  expires_at : Int
  sliding : Bool
  sliding_ttl : Int

/-- DiskCache state: data is the in-memory dict self._data, stored is the
content of the JSON file at self.path. DiskCache._save copies data to
stored. -/
structure DiskCache where
  data : List (String × CacheEntry)
  stored : List (String × CacheEntry)

/-- DiskCache._save: persist the in-memory dict to the file. -/
def DiskCache.save (c : DiskCache) : DiskCache :=
  { c with stored := c.data }

/-- DiskCache.get at call time now. Mirrors the source line by line:
missing key returns None; an entry with now >= expires_at is popped,
saved, and None is returned; a sliding entry with positive sliding_ttl
has expires_at refreshed to now + sliding_ttl and is saved; the stored
value is returned. The returned Json is Json.null for absence, exactly
as the Python function returns None. -/
def DiskCache.get (c : DiskCache) (now : Int) (key : String) : Json × DiskCache :=
  match alookup c.data key with
  | none => (Json.null, c)
  | some item =>
    if item.expires_at ≤ now then
      (Json.null, DiskCache.save { c with data := aerase c.data key })
    else if item.sliding then
      if 0 < item.sliding_ttl then
        let item2 : CacheEntry := { item with expires_at := now + item.sliding_ttl }
        (item2.value, DiskCache.save { c with data := aset c.data key item2 })
      else (item.value, c)
    else (item.value, c)

/-- DiskCache.set_absolute: store value with expires_at = now + ttl,
sliding = False, sliding_ttl = 0, and persist. -/
def DiskCache.set_absolute (c : DiskCache) (now : Int) (key : String)
    (value : Json) (ttl : Int) : DiskCache :=
  DiskCache.save { c with data := aset c.data key ⟨value, now + ttl, false, 0⟩ }

/-- DiskCache.set_sliding: store value with expires_at = now + ttl,
sliding = True, sliding_ttl = ttl, and persist. -/
def DiskCache.set_sliding (c : DiskCache) (now : Int) (key : String)
    (value : Json) (ttl : Int) : DiskCache :=
  DiskCache.save { c with data := aset c.data key ⟨value, now + ttl, true, ttl⟩ }

/-- Removal of all hyphen characters, Python player_id.replace with the
hyphen pattern and the empty replacement (it removes every occurrence
of the single character). -/
def normalize_player_id (pid : String) : String :=
  String.mk (pid.toList.filter (fun ch => ch != '-'))

/-- Request path of SuperviveService.get_player_matches. -/
def get_player_matches_path (platform pid : String) : String :=
  "api/players/" ++ platform ++ "-" ++ normalize_player_id pid ++ "/matches"

/-- Query parameters of SuperviveService.get_player_matches. -/
def get_player_matches_params (page : Int) : List (String × String) :=
  [("page", toString page)]

/-- Request path of SuperviveService.fetch_new_player_matches (the POST). -/
def fetch_new_player_matches_path (platform pid : String) : String :=
  "api/players/" ++ platform ++ "-" ++ normalize_player_id pid ++ "/matches/fetch"

/-- Request path of SuperviveService._get_xsrf_token (the probe GET). -/
def get_xsrf_token_path (platform pid : String) : String :=
  "api/players/" ++ platform ++ "-" ++ normalize_player_id pid ++ "/matches"

/-- Request path of SuperviveService.get_match: the match id is inserted
verbatim, no hyphen stripping. -/
def get_match_path (platform match_id : String) : String :=
  "api/matches/" ++ platform ++ "-" ++ match_id

/-- Cache key of SuperviveService.get_match: the match id is inserted
verbatim, no hyphen stripping. -/
def get_match_key (platform match_id : String) : String :=
  "match:" ++ platform ++ ":" ++ match_id

/-- Cache key of SuperviveService.search_players. -/
def search_key (query : String) : String :=
  "search:" ++ query

/-- SuperviveService.search_players with the upstream HTTP interaction
abstracted by the response body it would produce (upstream). Consults
the cache under use_cache, treats a None answer as a miss, then fetches
and stores with a 7-day absolute TTL. -/
def search_players (c : DiskCache) (now : Int) (query : String)
    (use_cache : Bool) (upstream : Json) : Json × DiskCache :=
  if use_cache then
    let r := DiskCache.get c now (search_key query)
    if r.1.isNull then
      (upstream, DiskCache.set_absolute r.2 now (search_key query) upstream (7 * 24 * 3600))
    else r
  else
    (upstream, DiskCache.set_absolute c now (search_key query) upstream (7 * 24 * 3600))

/-- SuperviveService.get_match with the upstream HTTP interaction
abstracted by the response body it would produce (upstream). Always
consults the cache, treats a None answer as a miss, then fetches and
stores with a 15-day sliding TTL. -/
def get_match (c : DiskCache) (now : Int) (platform match_id : String)
    (upstream : Json) : Json × DiskCache :=
  let r := DiskCache.get c now (get_match_key platform match_id)
  if r.1.isNull then
    (upstream, DiskCache.set_sliding r.2 now (get_match_key platform match_id) upstream (15 * 24 * 3600))
  else r

/-- SuperviveService.get_player_matches from the response body onward:
raises ValueError (data is null) when the parsed body is None,
otherwise returns it. -/
def get_player_matches (body : Json) : Except SvcError Json :=
  if body.isNull then Except.error SvcError.nullPayload else Except.ok body

/-- The items of one page: payload.get(data, empty list) if the payload is
a dict else the empty list, iterated by all_items.extend. -/
def pageItems (payload : Json) : List Json :=
  match payload with
  | .obj kvs => (dgetD kvs "data" (Json.arr [])).asList
  | _ => Json.arr [] |>.asList

/-- The meta of one page: payload.get(meta) if the payload is a dict else
None. -/
def pageMeta (payload : Json) : Json :=
  match payload with
  | .obj kvs => dget kvs "meta"
  | _ => Json.null

/-- last_page = int(meta.get(last_page) or meta.get(lastPage) or 0). -/
def lastPageOf (m : Json) : Int :=
  toPyInt (pyOr (pyOr (m.dgetJ "last_page") (m.dgetJ "lastPage")) (Json.num 0))

/-- The metadata stop condition of get_player_matches_pages: meta is
truthy, last_page is truthy (nonzero), and current_page >= last_page. -/
def metaStop (m : Json) (current : Nat) : Bool :=
  m.truthy && (lastPageOf m != 0 && decide (lastPageOf m ≤ (current : Int)))

/-- The while loop of SuperviveService.get_player_matches_pages. pageFn
abstracts the per-page HTTP call: pageFn p is the parsed body that
get_player_matches(platform, player_id, page = p) would see. fuel is
the number of loop iterations still allowed (pages - current_page + 1).
Returns the accumulated items together with the list of page numbers
actually requested, in request order. -/
def pagesAux (pageFn : Nat → Json) : Nat → Nat → Except SvcError (List Json × List Nat)
  | 0, _ => Except.ok ([], [])
  | fuel + 1, current =>
    match get_player_matches (pageFn current) with
    | Except.error e => Except.error e
    | Except.ok payload =>
      let items := pageItems payload
      if metaStop (pageMeta payload) current then Except.ok (items, [current])
      else if items.isEmpty then Except.ok (items, [current])
      else
        match pagesAux pageFn fuel (current + 1) with
        | Except.error e => Except.error e
        | Except.ok r => Except.ok (items ++ r.1, current :: r.2)

/-- SuperviveService.get_player_matches_pages: run the loop from page 1
with a budget of pages iterations. -/
def get_player_matches_pages (pageFn : Nat → Json) (pages : Nat) :
    Except SvcError (List Json × List Nat) :=
  pagesAux pageFn pages 1

/-- The slice of an HTTP response that fetch_new_player_matches inspects:
the declared Content-Type header (none when the response declares no
such header) and the parsed body. -/
structure HttpResponse where
  contentType : Option String
  body : Json

/-- Substring containment, Python needle in hay. -/
def strContains (hay needle : String) : Bool :=
  hay.toList.tails.any (fun t => needle.toList.isPrefixOf t)

/-- SuperviveService.fetch_new_player_matches from the refresh POST
response onward (the XSRF token step has already succeeded):
content_type = headers.get(Content-Type, empty); raise RuntimeError
when it contains text/html or is falsy; raise ValueError when the
parsed payload is None; else return the payload. -/
def fetch_new_player_matches (res : HttpResponse) : Except SvcError Json :=
  let contentType := res.contentType.getD ""
  if strContains contentType "text/html" || contentType == "" then
    Except.error SvcError.invalidToken
  else if res.body.isNull then Except.error SvcError.nullPayload
  else Except.ok res.body

/-- The temporary path used by DiskCache._save. -/
def tmpPath (path : String) : String := path ++ ".tmp"

/-- First phase of DiskCache._save on a file system modelled as an
association list from path to content: write the full serialized store
to the temporary path. A crash between the phases leaves exactly this
state. -/
def save_write_tmp (fs : List (String × String)) (path content : String) :
    List (String × String) :=
  aset fs (tmpPath path) content

/-- Second phase of DiskCache._save: os.replace(tmp, path), which
atomically renames the temporary file over the canonical path
(overwriting it) and removes the temporary name. -/
def save_replace (fs : List (String × String)) (path : String) :
    List (String × String) :=
  match alookup fs (tmpPath path) with
  | some content => aerase (aset fs path content) (tmpPath path)
  | none => fs

/-- DiskCache._save at the file-system level: both phases in order. -/
def save_file (fs : List (String × String)) (path content : String) :
    List (String × String) :=
  save_replace (save_write_tmp fs path content) path

/-- A sequence of DiskCache.get calls (call time and key each), threading
the cache state and discarding the returned values. -/
def applyGets (c : DiskCache) (ops : List (Int × String)) : DiskCache :=
  ops.foldl (fun s p => (DiskCache.get s p.1 p.2).2) c

theorem alookup_aset_self {α : Type} (l : List (String × α)) (k : String) (v : α) :
    alookup (aset l k v) k = some v := by
  induction l with
  | nil => simp [aset, alookup]
  | cons p rest ih =>
    by_cases h : p.1 = k
    · simp [aset, alookup, h]
    · simp [aset, alookup, h, ih]

theorem alookup_aset_ne {α : Type} (l : List (String × α)) (k key : String) (v : α)
    (h : k ≠ key) : alookup (aset l k v) key = alookup l key := by
  induction l with
  | nil => simp [aset, alookup, h]
  | cons p rest ih =>
    by_cases hp : p.1 = k
    · simp [aset, alookup, hp, h]
    · simp [aset, alookup, hp, ih]

theorem alookup_aerase_self {α : Type} (l : List (String × α)) (k : String) :
    alookup (aerase l k) k = none := by
  induction l with
  | nil => simp [aerase, alookup]
  | cons p rest ih =>
    by_cases h : p.1 = k
    · simp [aerase, h, ih]
    · simp [aerase, alookup, h, ih]

theorem alookup_aerase_ne {α : Type} (l : List (String × α)) (k key : String)
    (h : k ≠ key) : alookup (aerase l k) key = alookup l key := by
  induction l with
  | nil => simp [aerase]
  | cons p rest ih =>
    by_cases hp : p.1 = k
    · rw [show alookup (p :: rest) key = alookup rest key by
        simp [alookup, hp ▸ h]]
      simp [aerase, hp, ih]
    · by_cases hk : p.1 = key
      · simp [aerase, alookup, hp, hk, Ne.symm h]
      · simp [aerase, alookup, hp, hk, ih]

/-- C1: an existence-check response body with no exists or Exists key
fails with the MissingField error; and at the body binding exists to
false, the code also fails with the MissingField error instead of
returning false, because the or-chain collapses a present False into
the missing case. This records the divergence from the claim, which
says that body returns false. -/
theorem c1_check_player_exists_eval :
    check_player_exists [] = Except.error SvcError.missingField ∧
    check_player_exists [("exists", Json.bool false)] = Except.error SvcError.missingField := by
  exact ⟨rfl, rfl⟩

/-- C2: for every cache entry and every call time with now >= expires_at,
DiskCache.get returns the absence marker (never the value), removes the
entry from the store, and persists the removal, regardless of the
entry's policy. -/
theorem c2_get_expired_reports_absent (c : DiskCache) (now : Int) (key : String)
    (e : CacheEntry) (hl : alookup c.data key = some e)
    (hexp : e.expires_at ≤ now) :
    (DiskCache.get c now key).1 = Json.null ∧
    alookup (DiskCache.get c now key).2.data key = none ∧
    (DiskCache.get c now key).2.stored = (DiskCache.get c now key).2.data := by
  unfold DiskCache.get
  rw [hl]
  simp [hexp, DiskCache.save, alookup_aerase_self]

/-- C2 witness: a concrete sliding entry read exactly at its expiry. -/
theorem c2_get_expired_reports_absent_witness :
    (alookup (DiskCache.mk [("k", CacheEntry.mk (Json.num 1) 5 true 5)] []).data "k"
      = some (CacheEntry.mk (Json.num 1) 5 true 5)) ∧
    ((CacheEntry.mk (Json.num 1) 5 true 5).expires_at ≤ 5) ∧
    ((DiskCache.get (DiskCache.mk [("k", CacheEntry.mk (Json.num 1) 5 true 5)] []) 5 "k").1 = Json.null ∧
     alookup (DiskCache.get (DiskCache.mk [("k", CacheEntry.mk (Json.num 1) 5 true 5)] []) 5 "k").2.data "k" = none ∧
     (DiskCache.get (DiskCache.mk [("k", CacheEntry.mk (Json.num 1) 5 true 5)] []) 5 "k").2.stored
       = (DiskCache.get (DiskCache.mk [("k", CacheEntry.mk (Json.num 1) 5 true 5)] []) 5 "k").2.data) :=
  ⟨rfl, by decide,
    c2_get_expired_reports_absent (DiskCache.mk [("k", CacheEntry.mk (Json.num 1) 5 true 5)] [])
      5 "k" (CacheEntry.mk (Json.num 1) 5 true 5) rfl (by decide)⟩

/-- C8: DiskCache._save writes the full contents to the temporary path
and only then renames it over the canonical path, so a crash between
the two phases leaves the prior store file untouched, while a completed
save installs the new contents at the canonical path. -/
theorem c8_save_atomic (fs : List (String × String)) (path content : String) :
    alookup (save_write_tmp fs path content) path = alookup fs path ∧
    alookup (save_file fs path content) path = some content := by
  have hne : tmpPath path ≠ path := by
    intro h
    have h2 := congrArg String.length h
    simp only [tmpPath, String.length_append] at h2
    have h4 : (".tmp").length = 4 := rfl
    omega
  constructor
  · exact alookup_aset_ne _ _ _ _ hne
  · simp [save_file, save_replace, save_write_tmp, alookup_aset_self,
      alookup_aerase_ne _ _ _ hne]

/-- C3: for a Sliding entry with sliding_ttl T > 0, an unexpired
DiskCache.get at time t returns the value, resets expires_at to t + T,
and persists the updated entry before returning; a subsequent get at
t + T - 1 still succeeds, and a get at t + T + 1 with no intervening
read reports absence. -/
theorem c3_sliding_renewal (c : DiskCache) (t T expo : Int) (key : String) (v : Json)
    (hl : alookup c.data key = some (CacheEntry.mk v expo true T))
    (hT : 0 < T) (hun : t < expo) :
    (DiskCache.get c t key).1 = v ∧
    alookup (DiskCache.get c t key).2.data key = some (CacheEntry.mk v (t + T) true T) ∧
    (DiskCache.get c t key).2.stored = (DiskCache.get c t key).2.data ∧
    (DiskCache.get (DiskCache.get c t key).2 (t + T - 1) key).1 = v ∧
    (DiskCache.get (DiskCache.get c t key).2 (t + T + 1) key).1 = Json.null := by
  have hne : ¬ expo ≤ t := not_le.mpr hun
  have h1 : DiskCache.get c t key =
      (v, DiskCache.save { c with data := aset c.data key (CacheEntry.mk v (t + T) true T) }) := by
    unfold DiskCache.get
    rw [hl]
    simp [hne, hT]
  rw [h1]
  have hl2 : alookup (aset c.data key (CacheEntry.mk v (t + T) true T)) key
      = some (CacheEntry.mk v (t + T) true T) := alookup_aset_self _ _ _
  have hne2 : ¬ (t + T ≤ t + T - 1) := by omega
  have hexp3 : t + T ≤ t + T + 1 := by omega
  refine ⟨rfl, ?_, rfl, ?_, ?_⟩
  · exact hl2
  · unfold DiskCache.get
    rw [show (DiskCache.save { c with data := aset c.data key (CacheEntry.mk v (t + T) true T) }).data
        = aset c.data key (CacheEntry.mk v (t + T) true T) from rfl, hl2]
    simp [hne2, hT]
  · unfold DiskCache.get
    rw [show (DiskCache.save { c with data := aset c.data key (CacheEntry.mk v (t + T) true T) }).data
        = aset c.data key (CacheEntry.mk v (t + T) true T) from rfl, hl2]
    simp [hexp3]

/-- C3 witness: a concrete sliding entry with TTL 10, read at time 0,
then at 9 and 11. -/
theorem c3_sliding_renewal_witness :
    (alookup (DiskCache.mk [("k", CacheEntry.mk (Json.num 3) 4 true 10)] []).data "k"
      = some (CacheEntry.mk (Json.num 3) 4 true 10)) ∧
    ((0 : Int) < 10) ∧ ((0 : Int) < 4) ∧
    ((DiskCache.get (DiskCache.mk [("k", CacheEntry.mk (Json.num 3) 4 true 10)] []) 0 "k").1 = Json.num 3 ∧
     alookup (DiskCache.get (DiskCache.mk [("k", CacheEntry.mk (Json.num 3) 4 true 10)] []) 0 "k").2.data "k"
       = some (CacheEntry.mk (Json.num 3) (0 + 10) true 10) ∧
     (DiskCache.get (DiskCache.mk [("k", CacheEntry.mk (Json.num 3) 4 true 10)] []) 0 "k").2.stored
       = (DiskCache.get (DiskCache.mk [("k", CacheEntry.mk (Json.num 3) 4 true 10)] []) 0 "k").2.data ∧
     (DiskCache.get (DiskCache.get (DiskCache.mk [("k", CacheEntry.mk (Json.num 3) 4 true 10)] []) 0 "k").2 (0 + 10 - 1) "k").1 = Json.num 3 ∧
     (DiskCache.get (DiskCache.get (DiskCache.mk [("k", CacheEntry.mk (Json.num 3) 4 true 10)] []) 0 "k").2 (0 + 10 + 1) "k").1 = Json.null) :=
  ⟨rfl, by decide, by decide,
    c3_sliding_renewal (DiskCache.mk [("k", CacheEntry.mk (Json.num 3) 4 true 10)] [])
      0 10 4 "k" (Json.num 3) rfl (by decide) (by decide)⟩

/-- C6: for every platform and page number, the player ids AB-12-CD and
AB12CD produce identical request paths (match-history page fetch, XSRF
probe, refresh POST) and identical query parameters, because every
hyphen is stripped from player ids; while get_match inserts the match
id verbatim, so the same two strings used as match ids give different
request paths and different cache keys. -/
theorem c6_player_id_normalization (platform : String) (page : Int) :
    (get_player_matches_path platform "AB-12-CD" = get_player_matches_path platform "AB12CD" ∧
     get_player_matches_params page = get_player_matches_params page ∧
     get_xsrf_token_path platform "AB-12-CD" = get_xsrf_token_path platform "AB12CD" ∧
     fetch_new_player_matches_path platform "AB-12-CD" = fetch_new_player_matches_path platform "AB12CD") ∧
    (get_match_path platform "AB-12-CD" ≠ get_match_path platform "AB12CD" ∧
     get_match_key platform "AB-12-CD" ≠ get_match_key platform "AB12CD") := by
  have hnorm : normalize_player_id "AB-12-CD" = "AB12CD" := by decide
  have hnorm2 : normalize_player_id "AB12CD" = "AB12CD" := by decide
  have hlen1 : ("AB-12-CD" : String).length = 8 := rfl
  have hlen2 : ("AB12CD" : String).length = 6 := rfl
  refine ⟨⟨?_, rfl, ?_, ?_⟩, ?_, ?_⟩
  · simp [get_player_matches_path, hnorm, hnorm2]
  · simp [get_xsrf_token_path, hnorm, hnorm2]
  · simp [fetch_new_player_matches_path, hnorm, hnorm2]
  · intro h
    have h2 := congrArg String.length h
    simp only [get_match_path, String.length_append, hlen1, hlen2] at h2
    omega
  · intro h
    have h2 := congrArg String.length h
    simp only [get_match_key, String.length_append, hlen1, hlen2] at h2
    omega

/-- C7: fetch_new_player_matches fails with the InvalidToken error, and
never returns a parsed body, whenever the refresh response declares no
Content-Type at all or the declared Content-Type contains text/html. -/
theorem c7_refresh_html_fails (res : HttpResponse)
    (h : res.contentType = none ∨
         ∃ ct, res.contentType = some ct ∧ strContains ct "text/html" = true) :
    fetch_new_player_matches res = Except.error SvcError.invalidToken := by
  rcases h with h | ⟨ct, hct, hc⟩
  · simp [fetch_new_player_matches, h, strContains]
  · simp [fetch_new_player_matches, hct, hc]

/-- C7 witness: a concrete HTML response carrying a JSON-decodable body. -/
theorem c7_refresh_html_fails_witness :
    ((HttpResponse.mk (some "text/html; charset=utf-8") (Json.num 1)).contentType = none ∨
     ∃ ct, (HttpResponse.mk (some "text/html; charset=utf-8") (Json.num 1)).contentType = some ct ∧
       strContains ct "text/html" = true) ∧
    fetch_new_player_matches (HttpResponse.mk (some "text/html; charset=utf-8") (Json.num 1))
      = Except.error SvcError.invalidToken :=
  ⟨Or.inr ⟨"text/html; charset=utf-8", rfl, by decide⟩,
   c7_refresh_html_fails (HttpResponse.mk (some "text/html; charset=utf-8") (Json.num 1))
     (Or.inr ⟨"text/html; charset=utf-8", rfl, by decide⟩)⟩

theorem get_data_cases (c : DiskCache) (now : Int) (k : String) :
    (DiskCache.get c now k).2.data = c.data ∨
    (DiskCache.get c now k).2.data = aerase c.data k ∨
    (∃ item : CacheEntry, alookup c.data k = some item ∧ item.sliding = true ∧
      (DiskCache.get c now k).2.data
        = aset c.data k { item with expires_at := now + item.sliding_ttl }) := by
  unfold DiskCache.get
  cases hit : alookup c.data k with
  | none => left; rfl
  | some item =>
    by_cases hexp : item.expires_at ≤ now
    · right; left; simp [hexp, DiskCache.save]
    · by_cases hs : item.sliding = true
      · by_cases ht : 0 < item.sliding_ttl
        · right; right
          exact ⟨item, rfl, hs, by simp [hexp, hs, ht, DiskCache.save]⟩
        · left; simp [hexp, hs, ht]
      · left; simp [hexp, hs]

theorem get_preserves_nonsliding (c : DiskCache) (now : Int) (k key : String)
    (e0 : CacheEntry) (hns : e0.sliding = false)
    (h : alookup c.data key = none ∨ alookup c.data key = some e0) :
    alookup (DiskCache.get c now k).2.data key = none ∨
    alookup (DiskCache.get c now k).2.data key = some e0 := by
  rcases get_data_cases c now k with hd | hd | ⟨item, hit, hs, hd⟩
  · rw [hd]; exact h
  · rw [hd]
    by_cases hk : k = key
    · subst hk; left; exact alookup_aerase_self _ _
    · rw [alookup_aerase_ne _ _ _ hk]; exact h
  · rw [hd]
    by_cases hk : k = key
    · subst hk
      rcases h with h | h
      · rw [hit] at h; cases h
      · rw [hit] at h
        have he : item = e0 := Option.some.inj h
        rw [he, hns] at hs
        cases hs
    · rw [alookup_aset_ne _ _ _ _ hk]; exact h

theorem applyGets_preserves_nonsliding (ops : List (Int × String)) (c : DiskCache)
    (key : String) (e0 : CacheEntry) (hns : e0.sliding = false)
    (h : alookup c.data key = none ∨ alookup c.data key = some e0) :
    alookup (applyGets c ops).data key = none ∨
    alookup (applyGets c ops).data key = some e0 := by
  induction ops generalizing c with
  | nil => exact h
  | cons p rest ih =>
    exact ih _ (get_preserves_nonsliding c p.1 p.2 key e0 hns h)

/-- C9: an Absolute entry's expires_at is fixed at creation by
set_absolute: after any sequence of DiskCache.get calls (any times, any
keys), whatever entry remains under the key is exactly the created one,
so repeated reads never change its expires_at. -/
theorem c9_absolute_never_renewed (c : DiskCache) (t0 ttl : Int) (key : String)
    (v : Json) (ops : List (Int × String)) (e : CacheEntry)
    (h : alookup (applyGets (DiskCache.set_absolute c t0 key v ttl) ops).data key = some e) :
    e = CacheEntry.mk v (t0 + ttl) false 0 := by
  have h0 : alookup (DiskCache.set_absolute c t0 key v ttl).data key
      = some (CacheEntry.mk v (t0 + ttl) false 0) := by
    simp [DiskCache.set_absolute, DiskCache.save, alookup_aset_self]
  have hp := applyGets_preserves_nonsliding ops _ key (CacheEntry.mk v (t0 + ttl) false 0)
    rfl (Or.inr h0)
  rcases hp with hp | hp
  · rw [hp] at h; cases h
  · rw [hp] at h; exact Option.some.inj h.symm

/-- C9 witness: create an absolute entry at time 0 with TTL 10, read it
twice (once at another key), and observe the entry unchanged. -/
theorem c9_absolute_never_renewed_witness :
    (alookup (applyGets (DiskCache.set_absolute (DiskCache.mk [] []) 0 "k" (Json.num 1) 10)
        [(3, "k"), (4, "other"), (9, "k")]).data "k"
      = some (CacheEntry.mk (Json.num 1) (0 + 10) false 0)) ∧
    (CacheEntry.mk (Json.num 1) (0 + 10) false 0 : CacheEntry)
      = CacheEntry.mk (Json.num 1) (0 + 10) false 0 :=
  ⟨rfl,
   c9_absolute_never_renewed (DiskCache.mk [] []) 0 10 "k" (Json.num 1)
     [(3, "k"), (4, "other"), (9, "k")] (CacheEntry.mk (Json.num 1) (0 + 10) false 0) rfl⟩

theorem get_unexpired_null_value (c : DiskCache) (now : Int) (key : String)
    (e : CacheEntry) (hl : alookup c.data key = some e) (hv : e.value = Json.null)
    (hun : now < e.expires_at) :
    (DiskCache.get c now key).1 = Json.null := by
  have hne : ¬ e.expires_at ≤ now := not_le.mpr hun
  unfold DiskCache.get
  rw [hl]
  by_cases hs : e.sliding = true
  · by_cases ht : 0 < e.sliding_ttl
    · simp [hne, hs, ht, hv]
    · simp [hne, hs, ht, hv]
  · simp [hne, hs, hv]

/-- C10: a JSON-null value stored in an unexpired entry is returned by
DiskCache.get as the same value that marks absence, so search_players
(with caching on) and get_match treat the cached null as a miss:
both re-issue the upstream request, return its body, and re-store it
under the same key. -/
theorem c10_cached_null_is_miss (c : DiskCache) (now : Int)
    (q platform mid : String) (e1 e2 : CacheEntry) (up : Json)
    (h1 : alookup c.data (search_key q) = some e1) (hv1 : e1.value = Json.null)
    (hun1 : now < e1.expires_at)
    (h2 : alookup c.data (get_match_key platform mid) = some e2)
    (hv2 : e2.value = Json.null) (hun2 : now < e2.expires_at) :
    (DiskCache.get c now (search_key q)).1 = Json.null ∧
    (search_players c now q true up).1 = up ∧
    alookup (search_players c now q true up).2.data (search_key q)
      = some (CacheEntry.mk up (now + 7 * 24 * 3600) false 0) ∧
    (get_match c now platform mid up).1 = up ∧
    alookup (get_match c now platform mid up).2.data (get_match_key platform mid)
      = some (CacheEntry.mk up (now + 15 * 24 * 3600) true (15 * 24 * 3600)) := by
  have hs1 := get_unexpired_null_value c now (search_key q) e1 h1 hv1 hun1
  have hm1 := get_unexpired_null_value c now (get_match_key platform mid) e2 h2 hv2 hun2
  refine ⟨hs1, ?_, ?_, ?_, ?_⟩
  · simp [search_players, hs1, Json.isNull]
  · simp [search_players, hs1, Json.isNull, DiskCache.set_absolute, DiskCache.save,
      alookup_aset_self]
  · simp [get_match, hm1, Json.isNull]
  · simp [get_match, hm1, Json.isNull, DiskCache.set_sliding, DiskCache.save,
      alookup_aset_self]

/-- C10 witness: a cache holding null under both a search key and a match
key, both unexpired, queried at time 0 with a non-null upstream body. -/
theorem c10_cached_null_is_miss_witness :
    (alookup (DiskCache.mk [("search:q", CacheEntry.mk Json.null 10 false 0),
        ("match:pc:m1", CacheEntry.mk Json.null 10 true 100)] []).data (search_key "q")
      = some (CacheEntry.mk Json.null 10 false 0)) ∧
    ((CacheEntry.mk Json.null 10 false 0).value = Json.null) ∧
    ((0 : Int) < (CacheEntry.mk Json.null 10 false 0).expires_at) ∧
    (alookup (DiskCache.mk [("search:q", CacheEntry.mk Json.null 10 false 0),
        ("match:pc:m1", CacheEntry.mk Json.null 10 true 100)] []).data (get_match_key "pc" "m1")
      = some (CacheEntry.mk Json.null 10 true 100)) ∧
    ((CacheEntry.mk Json.null 10 true 100).value = Json.null) ∧
    ((0 : Int) < (CacheEntry.mk Json.null 10 true 100).expires_at) ∧
    ((DiskCache.get (DiskCache.mk [("search:q", CacheEntry.mk Json.null 10 false 0),
        ("match:pc:m1", CacheEntry.mk Json.null 10 true 100)] []) 0 (search_key "q")).1 = Json.null ∧
     (search_players (DiskCache.mk [("search:q", CacheEntry.mk Json.null 10 false 0),
        ("match:pc:m1", CacheEntry.mk Json.null 10 true 100)] []) 0 "q" true (Json.num 7)).1 = Json.num 7 ∧
     alookup (search_players (DiskCache.mk [("search:q", CacheEntry.mk Json.null 10 false 0),
        ("match:pc:m1", CacheEntry.mk Json.null 10 true 100)] []) 0 "q" true (Json.num 7)).2.data (search_key "q")
       = some (CacheEntry.mk (Json.num 7) (0 + 7 * 24 * 3600) false 0) ∧
     (get_match (DiskCache.mk [("search:q", CacheEntry.mk Json.null 10 false 0),
        ("match:pc:m1", CacheEntry.mk Json.null 10 true 100)] []) 0 "pc" "m1" (Json.num 7)).1 = Json.num 7 ∧
     alookup (get_match (DiskCache.mk [("search:q", CacheEntry.mk Json.null 10 false 0),
        ("match:pc:m1", CacheEntry.mk Json.null 10 true 100)] []) 0 "pc" "m1" (Json.num 7)).2.data (get_match_key "pc" "m1")
       = some (CacheEntry.mk (Json.num 7) (0 + 15 * 24 * 3600) true (15 * 24 * 3600))) :=
  ⟨rfl, rfl, by decide, rfl, rfl, by decide,
   c10_cached_null_is_miss (DiskCache.mk [("search:q", CacheEntry.mk Json.null 10 false 0),
       ("match:pc:m1", CacheEntry.mk Json.null 10 true 100)] []) 0 "q" "pc" "m1"
     (CacheEntry.mk Json.null 10 false 0) (CacheEntry.mk Json.null 10 true 100) (Json.num 7)
     rfl rfl (by decide) rfl rfl (by decide)⟩

theorem pagesAux_succ (pageFn : Nat → Json) (fuel current : Nat) :
    pagesAux pageFn (fuel + 1) current =
      match get_player_matches (pageFn current) with
      | Except.error e => Except.error e
      | Except.ok payload =>
        if metaStop (pageMeta payload) current then Except.ok (pageItems payload, [current])
        else if (pageItems payload).isEmpty then Except.ok (pageItems payload, [current])
        else
          match pagesAux pageFn fuel (current + 1) with
          | Except.error e => Except.error e
          | Except.ok r => Except.ok (pageItems payload ++ r.1, current :: r.2) := rfl

/-- C4: with a page budget of 20 and pages whose metadata reports
last_page = 2, get_player_matches_pages stops after fetching page 2:
it requests exactly pages 1 and 2 (never page 3, whatever that page
would contain) and returns the items of pages 1 and 2 in fetch order,
because the loop breaks as soon as the reported last-page count is
reached or exceeded by the current page. -/
theorem c4_pagination_metadata_stop (pageFn : Nat → Json) (l1 l2 : List Json)
    (h1 : pageFn 1 = Json.obj [("data", Json.arr l1),
      ("meta", Json.obj [("last_page", Json.num 2)])])
    (h2 : pageFn 2 = Json.obj [("data", Json.arr l2),
      ("meta", Json.obj [("last_page", Json.num 2)])])
    (hne : l1 ≠ []) :
    get_player_matches_pages pageFn 20 = Except.ok (l1 ++ l2, [1, 2]) := by
  have hstep2 : pagesAux pageFn 19 2 = Except.ok (l2, [2]) := by
    show pagesAux pageFn (18 + 1) 2 = _
    rw [pagesAux_succ, h2]
    simp [get_player_matches, pageItems, pageMeta, metaStop, lastPageOf,
      dget, dgetD, pyOr, toPyInt, Json.truthy, Json.isNull, Json.asList, Json.dgetJ]
  obtain ⟨a, t, rfl⟩ : ∃ a t, l1 = a :: t := by
    cases l1 with
    | nil => exact absurd rfl hne
    | cons a t => exact ⟨a, t, rfl⟩
  show pagesAux pageFn (19 + 1) 1 = _
  rw [pagesAux_succ, h1]
  simp [get_player_matches, pageItems, pageMeta, metaStop, lastPageOf,
    dget, dgetD, pyOr, toPyInt, Json.truthy, Json.isNull, Json.asList, Json.dgetJ, hstep2]

/-- C4 witness: two concrete one-item pages reporting last_page = 2 and a
page function that would keep yielding data past page 2. -/
theorem c4_pagination_metadata_stop_witness :
    ((fun p => if p ≤ 2 then Json.obj [("data", Json.arr [Json.num (p : Int)]),
        ("meta", Json.obj [("last_page", Json.num 2)])]
      else Json.obj [("data", Json.arr [Json.num 99])]) 1
      = Json.obj [("data", Json.arr [Json.num 1]),
        ("meta", Json.obj [("last_page", Json.num 2)])]) ∧
    ((fun p => if p ≤ 2 then Json.obj [("data", Json.arr [Json.num (p : Int)]),
        ("meta", Json.obj [("last_page", Json.num 2)])]
      else Json.obj [("data", Json.arr [Json.num 99])]) 2
      = Json.obj [("data", Json.arr [Json.num 2]),
        ("meta", Json.obj [("last_page", Json.num 2)])]) ∧
    ([Json.num 1] ≠ ([] : List Json)) ∧
    get_player_matches_pages (fun p => if p ≤ 2 then Json.obj [("data", Json.arr [Json.num (p : Int)]),
        ("meta", Json.obj [("last_page", Json.num 2)])]
      else Json.obj [("data", Json.arr [Json.num 99])]) 20
      = Except.ok ([Json.num 1] ++ [Json.num 2], [1, 2]) :=
  ⟨rfl, rfl, by simp,
   c4_pagination_metadata_stop _ [Json.num 1] [Json.num 2] rfl rfl (by simp)⟩

/-- C5: with a page budget of 20, nonempty metadata-free pages 1 and 2,
and a page 3 that returns zero items and carries no pagination
metadata, get_player_matches_pages requests exactly pages 1, 2 and 3
and returns the concatenation of the items of pages 1 and 2 in fetch
order, because the empty page triggers the fallback stop condition. -/
theorem c5_pagination_empty_page_stop (pageFn : Nat → Json) (l1 l2 : List Json)
    (h1 : pageFn 1 = Json.obj [("data", Json.arr l1)])
    (h2 : pageFn 2 = Json.obj [("data", Json.arr l2)])
    (h3 : pageFn 3 = Json.obj [("data", Json.arr [])])
    (hne1 : l1 ≠ []) (hne2 : l2 ≠ []) :
    get_player_matches_pages pageFn 20 = Except.ok (l1 ++ l2, [1, 2, 3]) := by
  have hstep3 : pagesAux pageFn 18 3 = Except.ok ([], [3]) := by
    show pagesAux pageFn (17 + 1) 3 = _
    rw [pagesAux_succ, h3]
    simp [get_player_matches, pageItems, pageMeta, metaStop, lastPageOf,
      dget, dgetD, pyOr, toPyInt, Json.truthy, Json.isNull, Json.asList, Json.dgetJ]
  obtain ⟨a2, t2, rfl⟩ : ∃ a t, l2 = a :: t := by
    cases l2 with
    | nil => exact absurd rfl hne2
    | cons a t => exact ⟨a, t, rfl⟩
  have hstep2 : pagesAux pageFn 19 2 = Except.ok (a2 :: t2, [2, 3]) := by
    show pagesAux pageFn (18 + 1) 2 = _
    rw [pagesAux_succ, h2]
    simp [get_player_matches, pageItems, pageMeta, metaStop, lastPageOf,
      dget, dgetD, pyOr, toPyInt, Json.truthy, Json.isNull, Json.asList, Json.dgetJ, hstep3]
  obtain ⟨a1, t1, rfl⟩ : ∃ a t, l1 = a :: t := by
    cases l1 with
    | nil => exact absurd rfl hne1
    | cons a t => exact ⟨a, t, rfl⟩
  show pagesAux pageFn (19 + 1) 1 = _
  rw [pagesAux_succ, h1]
  simp [get_player_matches, pageItems, pageMeta, metaStop, lastPageOf,
    dget, dgetD, pyOr, toPyInt, Json.truthy, Json.isNull, Json.asList, Json.dgetJ, hstep2]

/-- C5 witness: concrete one-item pages 1 and 2 without metadata and an
empty page 3. -/
theorem c5_pagination_empty_page_stop_witness :
    ((fun p => if p ≤ 2 then Json.obj [("data", Json.arr [Json.num (p : Int)])]
      else Json.obj [("data", Json.arr [])]) 1
      = Json.obj [("data", Json.arr [Json.num 1])]) ∧
    ((fun p => if p ≤ 2 then Json.obj [("data", Json.arr [Json.num (p : Int)])]
      else Json.obj [("data", Json.arr [])]) 2
      = Json.obj [("data", Json.arr [Json.num 2])]) ∧
    ((fun p => if p ≤ 2 then Json.obj [("data", Json.arr [Json.num (p : Int)])]
      else Json.obj [("data", Json.arr [])]) 3
      = Json.obj [("data", Json.arr [])]) ∧
    ([Json.num 1] ≠ ([] : List Json)) ∧ ([Json.num 2] ≠ ([] : List Json)) ∧
    get_player_matches_pages (fun p => if p ≤ 2 then Json.obj [("data", Json.arr [Json.num (p : Int)])]
      else Json.obj [("data", Json.arr [])]) 20
      = Except.ok ([Json.num 1] ++ [Json.num 2], [1, 2, 3]) :=
  ⟨rfl, rfl, rfl, by simp, by simp,
   c5_pagination_empty_page_stop _ [Json.num 1] [Json.num 2] rfl rfl rfl (by simp) (by simp)⟩
